import Mathlib

/-!
Verification of the Handora Games session backend (`src/api/main.py`).

The session store and its operations are embedded shallowly:
* the Python in-memory dict `SESSIONS` becomes an insertion-ordered
  association list `Store`;
* each FastAPI handler becomes a Lean function over `Store`; handlers that
  can raise `HTTPException` return an `Except ApiError _` together with the
  resulting store (an exception is raised before any mutation, so the store
  component of the error branch is the input store unchanged);
* Python floats (flex angles, baselines) are modelled as `Rat`;
* timestamps (`datetime.utcnow()`) are modelled as `Nat` values supplied by
  the caller, one per call that reads the clock;
* the external Supabase mirror and the LLM client are collaborators outside
  the core (and disabled when unconfigured); all handlers are modelled in
  their in-memory (`supabase = None`) execution path, which the spec states
  is authoritative for the process lifetime.
-/

namespace Handora

/-- `GameKey` enum from the source: the three fixed game keys. -/
inductive GameKey where
  | piano_tiles
  | space_invader
  | dinosaur
deriving DecidableEq, Repr

/-- `EventPayload` pydantic model: every field optional across games. -/
structure EventPayload where
  timestamp_ms : Option Int := none
  accuracy : Option Rat := none
  rom_percent : Option Rat := none
  hit : Option Bool := none
  flex_angle : Option Rat := none
  reaction_time : Option Int := none
  smoothness : Option Rat := none
deriving DecidableEq, Repr

/-- `FinishPayload(EventPayload)`: the event-style fields plus a required
integer score. -/
structure FinishPayload where
  event : EventPayload
  score : Int
deriving DecidableEq, Repr

/-- One value of the `SESSIONS` dict: the per-session record created by
`start_session`.  The metrics dict stored at finish holds exactly the
non-`None` event-style fields of the finish payload, which round-trips to the
`EventPayload` record itself, so it is stored here as `Option EventPayload`. -/
structure Session where
  started_at : Nat
  finished_at : Option Nat
  game_key : GameKey
  baseline_by_finger : Option (List (String × Rat))
  events : List EventPayload
  score : Option Int
  metrics : Option EventPayload
deriving DecidableEq, Repr

/-- The errors the handlers raise as `HTTPException`s, plus the
`PreconditionError` of the threshold-scoring revision. -/
inductive ApiError where
  | notFound
  | precondition
deriving DecidableEq, Repr

/-- The in-memory `SESSIONS: Dict[str, Dict[str, Any]]`, kept in insertion
order exactly as a Python dict iterates. -/
abbrev Store := List (String × Session)

/-- `SESSIONS.get(session_id)`: first entry with the given key. -/
def Store.lookup (st : Store) (sid : String) : Option Session :=
  (st.find? (fun p => p.1 == sid)).map (fun p => p.2)

/-- Overwriting the value stored under an existing key (a Python dict keeps
the key's position on assignment). -/
def Store.update (st : Store) (sid : String) (s : Session) : Store :=
  st.map (fun p => if p.1 == sid then (sid, s) else p)

/-- `SESSIONS[session_id] = ...`: replaces in place when the key exists,
appends at the end otherwise. -/
def Store.insert (st : Store) (sid : String) (s : Session) : Store :=
  if (st.lookup sid).isSome then st.update sid s else st ++ [(sid, s)]

/-- `start_session` (src/api/main.py:109-135), in-memory path.  The session
id comes from `uuid4()` and the timestamp from `utcnow()`; both are passed in
as parameters. -/
def start_session (st : Store) (sid : String) (now : Nat) (gk : GameKey) :
    Store × String :=
  (st.insert sid
    { started_at := now
      finished_at := none
      game_key := gk
      baseline_by_finger := none
      events := []
      score := none
      metrics := none },
   sid)

/-- `set_warmup_baseline` (src/api/main.py:138-152).  The handler replaces
the stored baseline exactly when the payload field `is not None` (an empty
dict is not `None` and does replace), and returns
`session.get("baseline_by_finger") or {}`, where both a missing and an empty
stored mapping render as `{}`. -/
def set_warmup_baseline (st : Store) (sid : String)
    (payload : Option (List (String × Rat))) :
    Except ApiError (List (String × Rat)) × Store :=
  match st.lookup sid with
  | none => (Except.error ApiError.notFound, st)
  | some session =>
    match payload with
    | some b =>
        (Except.ok ((some b).getD []),
         st.update sid { session with baseline_by_finger := some b })
    | none =>
        (Except.ok (session.baseline_by_finger.getD []), st)

/-- `record_event` (src/api/main.py:155-161): appends the payload to the
session's event list and returns the new length. -/
def record_event (st : Store) (sid : String) (payload : EventPayload) :
    Except ApiError Nat × Store :=
  match st.lookup sid with
  | none => (Except.error ApiError.notFound, st)
  | some session =>
    (Except.ok (session.events.length + 1),
     st.update sid { session with events := session.events ++ [payload] })

/-- `finish_session` (src/api/main.py:164-190), the caller-supplied-score
revision present in src/: sets `finished_at` and `score`, stores the
non-`None` event-style fields of the payload as `metrics`, and echoes them
back as an `EventPayload`. -/
def finish_session (st : Store) (sid : String) (now : Nat)
    (payload : FinishPayload) : Except ApiError EventPayload × Store :=
  match st.lookup sid with
  | none => (Except.error ApiError.notFound, st)
  | some session =>
    (Except.ok payload.event,
     st.update sid
       { session with
         finished_at := some now
         score := some payload.score
         metrics := some payload.event })

/-- `SessionDetail` response model. -/
structure SessionDetail where
  score : Option Int
  baseline_by_finger : Option (List (String × Rat))
  game_key : Option GameKey
  started_at : Option Nat
  finished_at : Option Nat
deriving DecidableEq, Repr

/-- `get_session` (src/api/main.py:193-219), in-memory fallback path.  A
pure read: it takes the store and returns a projection without touching it. -/
def get_session (st : Store) (sid : String) : Except ApiError SessionDetail :=
  match st.lookup sid with
  | none => Except.error ApiError.notFound
  | some s =>
    Except.ok
      { score := s.score
        baseline_by_finger := s.baseline_by_finger
        game_key := some s.game_key
        started_at := some s.started_at
        finished_at := s.finished_at }

/-- The `current` dict built by `get_session_with_history`'s in-memory
fallback. -/
structure CurrentView where
  id : String
  game_key : GameKey
  score : Option Int
  baseline_by_finger : Option (List (String × Rat))
  metrics : Option EventPayload
  started_at : Option Nat
  finished_at : Option Nat
deriving DecidableEq, Repr

/-- One entry of the `history` list built by the in-memory fallback: only
id, score and start time are projected. -/
structure HistoryEntry where
  id : String
  score : Option Int
  started_at : Option Nat
deriving DecidableEq, Repr

/-- Projection of a stored session to a history entry, as in the fallback
loop of `get_session_with_history` (`started_at` is always set on a stored
session, so its isoformat rendering is always present). -/
def mkHistoryEntry (p : String × Session) : HistoryEntry :=
  { id := p.1, score := p.2.score, started_at := some p.2.started_at }

/-- `get_session_with_history` (src/api/main.py:222-271), in-memory fallback
path: builds `current` from the queried session, then walks `SESSIONS` in
iteration order appending every other session with the same game key.  The
fallback loop has no `limit` and no explicit ordering clause. -/
def get_session_with_history (st : Store) (sid : String) :
    Except ApiError (CurrentView × List HistoryEntry) :=
  match st.lookup sid with
  | none => Except.error ApiError.notFound
  | some sess =>
    Except.ok
      ({ id := sid
         game_key := sess.game_key
         score := sess.score
         baseline_by_finger := sess.baseline_by_finger
         metrics := sess.metrics
         started_at := some sess.started_at
         finished_at := sess.finished_at },
       (st.filter
          (fun p => p.1 ≠ sid && decide (p.2.game_key = sess.game_key))).map
         mkHistoryEntry)

/-- The running-maximum update in `get_highscores`:
`if current is None or score > current: max = score`. -/
def foldMax (acc : Option Int) (sc : Int) : Option Int :=
  match acc with
  | none => some sc
  | some c => if sc > c then some sc else some c

/-- One step of the in-memory scan of `get_highscores`, for one game key:
sessions with no score or a different game key are skipped
(`if score is None or game_key not in max_by_game: continue`). -/
def maxStep (gk : GameKey) (acc : Option Int) (p : String × Session) :
    Option Int :=
  match p.2.score with
  | none => acc
  | some sc => if p.2.game_key = gk then foldMax acc sc else acc

/-- The in-memory scan of `get_highscores` for one game key: fold over all
sessions, skipping those with no score or a different game key. -/
def maxForGame (st : Store) (gk : GameKey) : Option Int :=
  st.foldl (maxStep gk) none

/-- Python's `x or 0` on an optional int: `None` and `0` are falsy. -/
def pyOrZero (o : Option Int) : Int :=
  match o with
  | none => 0
  | some v => if v = 0 then 0 else v

/-- `get_highscores` (src/api/main.py:306-349), in-memory fallback path:
the response keys "1", "2", "3" for piano_tiles, space_invader, dinosaur
in declaration order. -/
def get_highscores (st : Store) : Int × Int × Int :=
  (pyOrZero (maxForGame st GameKey.piano_tiles),
   pyOrZero (maxForGame st GameKey.space_invader),
   pyOrZero (maxForGame st GameKey.dinosaur))

/-- Modelled from the spec: the threshold-scoring revision of `finish` is
not under src/ (src/api/main.py carries only the caller-supplied-score
revision).  Spec §4.1: "Score = count of recorded events where `hit` is true
AND `flex_angle ≥ baseline` for the relevant finger/threshold; all other
events are ignored."  An event qualifies when its `hit` field is `true` and
its flex angle is present and at least the threshold. -/
def event_qualifies (threshold : Rat) (e : EventPayload) : Bool :=
  e.hit == some true &&
    (match e.flex_angle with
     | some a => decide (threshold ≤ a)
     | none => false)

/-- Modelled from the spec: the threshold-scoring `finish` itself, missing
from src/.  Spec §4.1: "requires `baseline` to be set; fails with a
`PreconditionError` (\x22baseline not set\x22) otherwise", and on success "sets
`finished_at` to the current timestamp, sets `score`" to the count of
qualifying events, "deterministic, order-independent".  The threshold is the
calibration angle stored for the relevant finger — the first entry of the
baseline mapping, as in the spec's single-entry example `{index: 30}`; a
baseline that was never set (or holds no finger at all) fails the
precondition.  The precondition check precedes every assignment, so the
error branch returns the store unchanged. -/
def finish_threshold (st : Store) (sid : String) (now : Nat) :
    Except ApiError Int × Store :=
  match st.lookup sid with
  | none => (Except.error ApiError.notFound, st)
  | some session =>
    match session.baseline_by_finger with
    | none => (Except.error ApiError.precondition, st)
    | some b =>
      match b.head? with
      | none => (Except.error ApiError.precondition, st)
      | some ft =>
        let sc : Int := (session.events.countP (event_qualifies ft.2) : Nat)
        (Except.ok sc,
         st.update sid
           { session with finished_at := some now, score := some sc })

/-- Iterated `record_event`: one handler call per payload, in order,
threading the store and collecting the returned running totals.  A failed
call stops the run (the handler raised before appending anything). -/
def record_trace (sid : String) : Store → List EventPayload → Store × List Nat
  | st, [] => (st, [])
  | st, e :: rest =>
    match record_event st sid e with
    | (Except.ok n, st') =>
      let r := record_trace sid st' rest
      (r.1, n :: r.2)
    | (Except.error _, st') => (st', [])

/-- Spec-side definition, for the highscores refinement: the recorded scores
of the sessions of one game, in store order. -/
def scoresOf (st : Store) (gk : GameKey) : List Int :=
  st.filterMap (fun p => if p.2.game_key = gk then p.2.score else none)

/-- Spec-side definition, following the spec's words for `highscores`: "the
maximum `score` among all sessions of that game, or 0 if none have a
recorded score". -/
def specHighscore (l : List Int) : Int :=
  match l with
  | [] => 0
  | x :: xs => xs.foldl max x

/-- The spec invariant on a store: every session's `score` and `finished_at`
are either both absent or both present. -/
def scoreFinishInv (st : Store) : Prop :=
  ∀ p ∈ st, p.2.score.isSome = p.2.finished_at.isSome

/-- The session record `start_session` creates, reused for concrete
example stores. -/
def freshSession (gk : GameKey) (t : Nat) : Session :=
  { started_at := t
    finished_at := none
    game_key := gk
    baseline_by_finger := none
    events := []
    score := none
    metrics := none }

/-- The event list of the spec's threshold-scoring example. -/
def exEvents : List EventPayload :=
  [{ hit := some true, flex_angle := some 35 },
   { hit := some true, flex_angle := some 20 },
   { hit := some false, flex_angle := some 40 }]

/-- A session carrying the spec example's baseline `{index: 30}` and its
three events. -/
def exThresholdSession : Session :=
  { freshSession GameKey.piano_tiles 0 with
      baseline_by_finger := some [("index", (30 : Rat))]
      events := exEvents }

/-- Store holding the spec example session. -/
def exThresholdStore : Store := [("s1", exThresholdSession)]

/-- A session with a stored baseline `{index: 30}` and nothing else. -/
def exBaselineSession : Session :=
  { freshSession GameKey.piano_tiles 0 with
      baseline_by_finger := some [("index", (30 : Rat))] }

/-- Store holding one session with a stored baseline. -/
def exBaselineStore : Store := [("b1", exBaselineSession)]

/-- Store holding one session whose baseline was never set. -/
def exNoBaselineStore : Store := [("w1", freshSession GameKey.piano_tiles 0)]

/-- Twelve sessions of the same game, started at times 0..11, in start-time
order. -/
def exHistoryStore : Store :=
  (List.range 12).map
    (fun i => ("h" ++ toString i, freshSession GameKey.piano_tiles i))

/-- The highscores example population: two scored piano_tiles sessions and
one scored dinosaur session. -/
def exScoresStore : Store :=
  [("a", { freshSession GameKey.piano_tiles 0 with
             score := some 5, finished_at := some 10 }),
   ("b", { freshSession GameKey.piano_tiles 1 with
             score := some 9, finished_at := some 11 }),
   ("c", { freshSession GameKey.dinosaur 2 with
             score := some 3, finished_at := some 12 })]

/-! ### Helper lemmas about the store -/

theorem lookup_cons (p : String × Session) (st : Store) (sid : String) :
    Store.lookup (p :: st) sid =
      if p.1 = sid then some p.2 else Store.lookup st sid := by
  simp only [Store.lookup, List.find?]
  by_cases h : p.1 = sid
  · simp [h]
  · simp [h, beq_eq_false_iff_ne.mpr h]

theorem update_cons (p : String × Session) (st : Store) (sid : String)
    (s' : Session) :
    Store.update (p :: st) sid s' =
      (if p.1 = sid then (sid, s') else p) :: Store.update st sid s' := by
  simp only [Store.update, List.map_cons, beq_iff_eq]

theorem lookup_update_self (st : Store) (sid : String) (s' : Session) :
    (st.update sid s').lookup sid = (st.lookup sid).map (fun _ => s') := by
  induction st with
  | nil => rfl
  | cons p st ih =>
    rw [update_cons]
    by_cases h : p.1 = sid
    · simp [h, lookup_cons]
    · rw [if_neg h, lookup_cons, lookup_cons, if_neg h, if_neg h]
      exact ih

theorem lookup_update_ne (st : Store) (sid sid' : String) (s' : Session)
    (h : sid' ≠ sid) :
    (st.update sid s').lookup sid' = st.lookup sid' := by
  induction st with
  | nil => rfl
  | cons p st ih =>
    rw [update_cons]
    by_cases hp : p.1 = sid
    · rw [if_pos hp, lookup_cons, lookup_cons, hp, if_neg (Ne.symm h),
        if_neg (Ne.symm h)]
      exact ih
    · rw [if_neg hp, lookup_cons, lookup_cons]
      by_cases hq : p.1 = sid'
      · rw [if_pos hq, if_pos hq]
      · rw [if_neg hq, if_neg hq]
        exact ih

theorem lookup_append_fresh (st : Store) (sid : String) (s : Session)
    (h : st.lookup sid = none) :
    (st ++ [(sid, s)]).lookup sid = some s := by
  induction st with
  | nil => simp [Store.lookup, List.find?]
  | cons p st ih =>
    rw [List.cons_append, lookup_cons] at *
    by_cases hp : p.1 = sid
    · simp [hp] at h
    · rw [if_neg hp] at *
      exact ih h

theorem lookup_append_ne (st : Store) (sid sid' : String) (s : Session)
    (h : sid' ≠ sid) :
    (st ++ [(sid, s)]).lookup sid' = st.lookup sid' := by
  induction st with
  | nil => simp [Store.lookup, List.find?, beq_eq_false_iff_ne.mpr (Ne.symm h)]
  | cons p st ih =>
    rw [List.cons_append, lookup_cons, lookup_cons]
    by_cases hp : p.1 = sid'
    · rw [if_pos hp, if_pos hp]
    · rw [if_neg hp, if_neg hp]
      exact ih

theorem mem_update (st : Store) (sid : String) (s' : Session)
    (q : String × Session) (hq : q ∈ st.update sid s') :
    q = (sid, s') ∨ q ∈ st := by
  rcases List.mem_map.mp hq with ⟨r, hr, hrq⟩
  by_cases h : r.1 = sid
  · left
    rw [← hrq]
    simp [h]
  · right
    rw [← hrq]
    simpa [h] using hr

theorem inv_lookup (st : Store) (sid : String) (s : Session)
    (hinv : scoreFinishInv st) (hs : st.lookup sid = some s) :
    s.score.isSome = s.finished_at.isSome := by
  rcases Option.map_eq_some'.mp hs with ⟨q, hq, hq2⟩
  have := hinv q (List.mem_of_find?_eq_some hq)
  rw [hq2] at this
  exact this

/-! ### Claim theorems -/

/-- C1: under the threshold-scoring policy, `finish` on a session whose
baseline was never set fails with `PreconditionError`, and after the failed
attempt the session's `score` and `finished_at` remain unset: the handler
raises before any assignment, so the store is returned unchanged. -/
theorem finish_threshold_no_baseline (st : Store) (sid : String) (now : Nat)
    (s : Session) (hs : st.lookup sid = some s)
    (hb : s.baseline_by_finger = none) (hsc : s.score = none)
    (hfin : s.finished_at = none) :
    (finish_threshold st sid now).1 = Except.error ApiError.precondition ∧
    (finish_threshold st sid now).2 = st ∧
    ((finish_threshold st sid now).2.lookup sid).map Session.score
      = some none ∧
    ((finish_threshold st sid now).2.lookup sid).map Session.finished_at
      = some none := by
  simp [finish_threshold, hs, hb, hsc, hfin]

theorem finish_threshold_no_baseline_witness :
    (finish_threshold exNoBaselineStore "w1" 7).1
      = Except.error ApiError.precondition ∧
    (finish_threshold exNoBaselineStore "w1" 7).2 = exNoBaselineStore ∧
    ((finish_threshold exNoBaselineStore "w1" 7).2.lookup "w1").map
        Session.score = some none ∧
    ((finish_threshold exNoBaselineStore "w1" 7).2.lookup "w1").map
        Session.finished_at = some none :=
  finish_threshold_no_baseline exNoBaselineStore "w1" 7
    (freshSession GameKey.piano_tiles 0) rfl rfl rfl rfl

/-- C2: under the threshold-scoring policy, `finish` scores the session as
the number of recorded events whose `hit` is true and whose flex angle
reaches the baseline threshold, ignoring every other event, and stores that
score; on the spec's example input the score is 1 (witness). -/
theorem finish_threshold_counts (st : Store) (sid : String) (now : Nat)
    (s : Session) (f : String) (t : Rat) (rest : List (String × Rat))
    (hs : st.lookup sid = some s)
    (hb : s.baseline_by_finger = some ((f, t) :: rest)) :
    (finish_threshold st sid now).1
      = Except.ok ((s.events.countP (event_qualifies t) : Nat) : Int) ∧
    ((finish_threshold st sid now).2.lookup sid).map Session.score
      = some (some ((s.events.countP (event_qualifies t) : Nat) : Int)) := by
  constructor
  · simp [finish_threshold, hs, hb]
  · simp [finish_threshold, hs, hb, lookup_update_self]

theorem finish_threshold_counts_witness :
    (finish_threshold exThresholdStore "s1" 5).1 = Except.ok 1 ∧
    ((finish_threshold exThresholdStore "s1" 5).2.lookup "s1").map
        Session.score = some (some 1) := by
  have h := finish_threshold_counts exThresholdStore "s1" 5
    exThresholdSession "index" 30 [] rfl rfl
  exact ⟨h.1.trans (by rfl), h.2.trans (by rfl)⟩

/-- C3 counterexample: calling `set_warmup_baseline` with an *empty* mapping
on a session whose stored baseline is `{index: 30}` is not a no-op — the
payload is not `None`, so the handler overwrites the stored baseline with
the empty mapping and returns `{}`, not the previously stored baseline. -/
theorem set_warmup_empty_not_noop :
    (exBaselineStore.lookup "b1").map Session.baseline_by_finger
      = some (some [("index", (30 : Rat))]) ∧
    ((set_warmup_baseline exBaselineStore "b1" (some [])).2.lookup "b1").map
        Session.baseline_by_finger = some (some []) ∧
    (set_warmup_baseline exBaselineStore "b1" (some [])).1 = Except.ok [] ∧
    some ([] : List (String × Rat)) ≠ some [("index", (30 : Rat))] := by
  refine ⟨rfl, rfl, rfl, ?_⟩
  simp

/-- C3 amended: only an *absent* mapping (`baseline_by_finger` field omitted,
i.e. `None`) is a no-op — the store is unchanged and the previously stored
baseline is returned (rendered as `{}` when none is stored); an empty
mapping instead replaces the stored baseline wholesale. -/
theorem set_warmup_absent_noop (st : Store) (sid : String) (s : Session)
    (hs : st.lookup sid = some s) :
    (set_warmup_baseline st sid none).2 = st ∧
    (set_warmup_baseline st sid none).1
      = Except.ok (s.baseline_by_finger.getD []) := by
  simp [set_warmup_baseline, hs]

theorem set_warmup_absent_noop_witness :
    (set_warmup_baseline exBaselineStore "b1" none).2 = exBaselineStore ∧
    (set_warmup_baseline exBaselineStore "b1" none).1
      = Except.ok [("index", (30 : Rat))] := by
  have h := set_warmup_absent_noop exBaselineStore "b1" exBaselineSession rfl
  exact ⟨h.1, h.2.trans (by rfl)⟩

/-- C5: for every game key, starting a session under a fresh identifier (the
`uuid4` value, assumed unseen) returns that identifier, previously absent
from the store, and the stored record has `started_at` set, an empty event
list, no score, no baseline, no metrics, and no `finished_at`. -/
theorem start_session_fresh (st : Store) (sid : String) (now : Nat)
    (gk : GameKey) (h : st.lookup sid = none) :
    (start_session st sid now gk).2 = sid ∧
    st.lookup (start_session st sid now gk).2 = none ∧
    (start_session st sid now gk).1.lookup sid
      = some { started_at := now, finished_at := none, game_key := gk,
               baseline_by_finger := none, events := [], score := none,
               metrics := none } := by
  refine ⟨rfl, h, ?_⟩
  simp only [start_session, Store.insert, h, Option.isSome_none,
    Bool.false_eq_true, if_neg]
  exact lookup_append_fresh st sid _ h

theorem start_session_fresh_witness :
    (start_session [] "n1" 3 GameKey.dinosaur).2 = "n1" ∧
    Store.lookup [] (start_session [] "n1" 3 GameKey.dinosaur).2 = none ∧
    (start_session [] "n1" 3 GameKey.dinosaur).1.lookup "n1"
      = some { started_at := 3, finished_at := none,
               game_key := GameKey.dinosaur, baseline_by_finger := none,
               events := [], score := none, metrics := none } :=
  start_session_fresh [] "n1" 3 GameKey.dinosaur rfl

/-- C6: `get_session` on an identifier absent from the store fails with
`NotFoundError`; the handler is a pure read of the store, so the failed
lookup leaves the store untouched by construction. -/
theorem get_session_unknown (st : Store) (sid : String)
    (h : st.lookup sid = none) :
    get_session st sid = Except.error ApiError.notFound := by
  simp [get_session, h]

theorem get_session_unknown_witness :
    get_session exBaselineStore "zz" = Except.error ApiError.notFound :=
  get_session_unknown exBaselineStore "zz" rfl

/-- C4 counterexample: the in-memory history has no 10-entry cap.  Over a
store of 12 sessions of the same game, querying one returns the other 11 in
its history, which exceeds the claimed bound of at most 10 entries. -/
theorem history_exceeds_ten :
    (get_session_with_history exHistoryStore "h0").map (fun r => r.2.length)
      = Except.ok 11 ∧ ¬ (11 ≤ 10) := by
  exact ⟨rfl, by simp⟩

/-- C4 amended: for every existing session, the in-memory history excludes
the queried session, every entry comes from a stored session of the same
game key (with its score and start time), and history order is store
(insertion) order, hence ascending start time whenever the store is ordered
by start time; the 10-entry cap of the claim holds only on the external
datastore path, not in the in-memory fallback, which returns all matching
sessions. -/
theorem history_properties (st : Store) (sid : String) (s : Session)
    (hs : st.lookup sid = some s) :
    ∃ cur hist, get_session_with_history st sid = Except.ok (cur, hist) ∧
      (∀ e ∈ hist, e.id ≠ sid) ∧
      (∀ e ∈ hist, ∃ s', (e.id, s') ∈ st ∧ s'.game_key = s.game_key ∧
          e.score = s'.score ∧ e.started_at = some s'.started_at) ∧
      (st.Pairwise (fun a b => a.2.started_at ≤ b.2.started_at) →
        hist.Pairwise (fun a b => a.started_at.getD 0 ≤ b.started_at.getD 0)) := by
  simp only [get_session_with_history, hs]
  refine ⟨_, _, rfl, ?_, ?_, ?_⟩
  · intro e he
    rcases List.mem_map.mp he with ⟨p, hp, hpe⟩
    have hpred := (List.mem_filter.mp hp).2
    rw [← hpe]
    simpa [mkHistoryEntry] using (Bool.and_elim_left hpred)
  · intro e he
    rcases List.mem_map.mp he with ⟨p, hp, hpe⟩
    rcases List.mem_filter.mp hp with ⟨hmem, hpred⟩
    refine ⟨p.2, ?_, ?_, ?_, ?_⟩
    · rw [← hpe]
      simpa [mkHistoryEntry] using hmem
    · simpa using (Bool.and_elim_right hpred)
    · rw [← hpe]
      rfl
    · rw [← hpe]
      rfl
  · intro hsort
    exact ((hsort.filter _).map mkHistoryEntry
      (by intro a b hab; simpa [mkHistoryEntry] using hab))

theorem history_properties_witness :
    ∃ cur hist,
      get_session_with_history exHistoryStore "h0" = Except.ok (cur, hist) ∧
      (∀ e ∈ hist, e.id ≠ "h0") ∧
      (∀ e ∈ hist, ∃ s', (e.id, s') ∈ exHistoryStore ∧
          s'.game_key = (freshSession GameKey.piano_tiles 0).game_key ∧
          e.score = s'.score ∧ e.started_at = some s'.started_at) ∧
      (exHistoryStore.Pairwise (fun a b => a.2.started_at ≤ b.2.started_at) →
        hist.Pairwise
          (fun a b => a.started_at.getD 0 ≤ b.started_at.getD 0)) :=
  history_properties exHistoryStore "h0" (freshSession GameKey.piano_tiles 0)
    rfl

/-- C7: `record_event` is append-only.  Iterating it over any payload list
on an existing session stores exactly the old events followed by the new
ones in call order (so no existing event is modified and order matches call
order), and the i-th call returns the running total `old + i`; on a session
that starts with no events the i-th returned total is i and the final one
is the number of calls. -/
theorem record_trace_spec (sid : String) (l : List EventPayload) (st : Store)
    (s : Session) (hs : st.lookup sid = some s) :
    ((record_trace sid st l).1.lookup sid).map Session.events
      = some (s.events ++ l) ∧
    (record_trace sid st l).2
      = (List.range l.length).map (fun i => s.events.length + i + 1) := by
  induction l generalizing st s with
  | nil => simp [record_trace, hs]
  | cons e rest ih =>
    have hstep : record_event st sid e
        = (Except.ok (s.events.length + 1),
           st.update sid { s with events := s.events ++ [e] }) := by
      simp [record_event, hs]
    have hlk : (st.update sid { s with events := s.events ++ [e] }).lookup sid
        = some { s with events := s.events ++ [e] } := by
      rw [lookup_update_self, hs]
      rfl
    have hrec := ih (st.update sid { s with events := s.events ++ [e] })
      { s with events := s.events ++ [e] } hlk
    constructor
    · show ((record_trace sid st (e :: rest)).1.lookup sid).map Session.events
        = some (s.events ++ (e :: rest))
      rw [record_trace, hstep]
      simpa [List.append_assoc] using hrec.1
    · rw [record_trace, hstep]
      simp only []
      rw [hrec.2]
      simp only [List.length_cons, List.range_succ_eq_map, List.map_cons,
        List.map_map]
      congr 1
      apply List.map_congr_left
      intro i _
      simp only [Function.comp, List.length_append, List.length_cons,
        List.length_nil]
      omega

theorem record_trace_spec_witness :
    ((record_trace "w1" exNoBaselineStore exEvents).1.lookup "w1").map
        Session.events = some exEvents ∧
    (record_trace "w1" exNoBaselineStore exEvents).2 = [1, 2, 3] := by
  have h := record_trace_spec "w1" exEvents exNoBaselineStore
    (freshSession GameKey.piano_tiles 0) rfl
  exact ⟨h.1.trans (by rfl), h.2.trans (by rfl)⟩

/-! ### Highscore lemmas -/

theorem foldMax_some (x y : Int) : foldMax (some x) y = some (max x y) := by
  simp only [foldMax]
  by_cases h : y > x
  · rw [if_pos h, max_eq_right h.le]
  · rw [if_neg h, max_eq_left (not_lt.mp h)]

theorem foldl_foldMax_some (l : List Int) (x : Int) :
    l.foldl foldMax (some x) = some (l.foldl max x) := by
  induction l generalizing x with
  | nil => rfl
  | cons y ys ih => rw [List.foldl_cons, List.foldl_cons, foldMax_some, ih]

theorem foldl_maxStep (gk : GameKey) (st : Store) (acc : Option Int) :
    st.foldl (maxStep gk) acc = (scoresOf st gk).foldl foldMax acc := by
  induction st generalizing acc with
  | nil => rfl
  | cons p st ih =>
    rw [List.foldl_cons]
    by_cases hg : p.2.game_key = gk
    · cases hsc : p.2.score with
      | none => simp [maxStep, hg, hsc, ih, scoresOf, List.filterMap_cons]
      | some sc => simp [maxStep, hg, hsc, ih, scoresOf, List.filterMap_cons]
    · cases hsc : p.2.score with
      | none => simp [maxStep, hg, hsc, ih, scoresOf, List.filterMap_cons]
      | some sc => simp [maxStep, hg, hsc, ih, scoresOf, List.filterMap_cons]

theorem pyOrZero_some (v : Int) : pyOrZero (some v) = v := by
  by_cases h : v = 0
  · simp [pyOrZero, h]
  · simp [pyOrZero, h]

theorem maxForGame_spec (st : Store) (gk : GameKey) :
    pyOrZero (maxForGame st gk) = specHighscore (scoresOf st gk) := by
  rw [maxForGame, foldl_maxStep]
  cases hl : scoresOf st gk with
  | nil => rfl
  | cons x xs =>
    rw [List.foldl_cons]
    show pyOrZero (xs.foldl foldMax (foldMax none x)) = specHighscore (x :: xs)
    rw [show foldMax none x = some x from rfl, foldl_foldMax_some,
      pyOrZero_some]
    rfl

/-- C8: `get_highscores` returns, for the fixed keys "1", "2", "3" (the
three game keys in declaration order), the maximum recorded score among the
sessions of each game, or 0 when no session of that game has a recorded
score (the spec-side `specHighscore` over the game's recorded scores); on
the example population {piano_tiles: 5, piano_tiles: 9, dinosaur: 3} it
returns (9, 0, 3). -/
theorem get_highscores_spec (st : Store) :
    get_highscores st
      = (specHighscore (scoresOf st GameKey.piano_tiles),
         specHighscore (scoresOf st GameKey.space_invader),
         specHighscore (scoresOf st GameKey.dinosaur)) ∧
    get_highscores exScoresStore = (9, 0, 3) := by
  constructor
  · rw [get_highscores, maxForGame_spec, maxForGame_spec, maxForGame_spec]
  · rfl

/-- C9: the both-absent-or-both-present invariant for `score` and
`finished_at` is preserved by every store operation; the finish transition
(and only it) sets both fields, in one store update; the warmup and
record-event updates leave both fields of the touched session exactly as
they were, and a started session has both fields absent. -/
theorem score_finished_invariant (st : Store) (sid : String) (now : Nat)
    (gk : GameKey) (bl : List (String × Rat)) (ev : EventPayload)
    (fp : FinishPayload) (hinv : scoreFinishInv st) :
    (scoreFinishInv (start_session st sid now gk).1 ∧
     scoreFinishInv (set_warmup_baseline st sid (some bl)).2 ∧
     scoreFinishInv (set_warmup_baseline st sid none).2 ∧
     scoreFinishInv (record_event st sid ev).2 ∧
     scoreFinishInv (finish_session st sid now fp).2 ∧
     scoreFinishInv (finish_threshold st sid now).2) ∧
    (∀ s, st.lookup sid = some s →
      (finish_session st sid now fp).2.lookup sid
          = some { s with finished_at := some now, score := some fp.score,
                          metrics := some fp.event } ∧
      (set_warmup_baseline st sid (some bl)).2.lookup sid
          = some { s with baseline_by_finger := some bl } ∧
      (record_event st sid ev).2.lookup sid
          = some { s with events := s.events ++ [ev] }) ∧
    (st.lookup sid = none →
      (start_session st sid now gk).1.lookup sid
        = some { started_at := now, finished_at := none, game_key := gk,
                 baseline_by_finger := none, events := [], score := none,
                 metrics := none }) := by
  refine ⟨⟨?_, ?_, ?_, ?_, ?_, ?_⟩, ?_, ?_⟩
  · -- start_session preserves the invariant
    simp only [start_session, Store.insert]
    by_cases hlk : (st.lookup sid).isSome
    · rw [if_pos hlk]
      intro q hq
      rcases mem_update _ _ _ _ hq with hq1 | hq2
      · subst hq1
        rfl
      · exact hinv q hq2
    · rw [if_neg hlk]
      intro q hq
      rcases List.mem_append.mp hq with hq1 | hq2
      · exact hinv q hq1
      · rcases List.mem_singleton.mp hq2 with rfl
        rfl
  · -- warmup with a mapping preserves the invariant
    cases hlk : st.lookup sid with
    | none => simpa [set_warmup_baseline, hlk] using hinv
    | some s =>
      simp only [set_warmup_baseline, hlk]
      intro q hq
      rcases mem_update _ _ _ _ hq with hq1 | hq2
      · subst hq1
        simpa using inv_lookup st sid s hinv hlk
      · exact hinv q hq2
  · -- warmup without a mapping preserves the invariant
    cases hlk : st.lookup sid with
    | none => simpa [set_warmup_baseline, hlk] using hinv
    | some s => simpa [set_warmup_baseline, hlk] using hinv
  · -- record_event preserves the invariant
    cases hlk : st.lookup sid with
    | none => simpa [record_event, hlk] using hinv
    | some s =>
      simp only [record_event, hlk]
      intro q hq
      rcases mem_update _ _ _ _ hq with hq1 | hq2
      · subst hq1
        simpa using inv_lookup st sid s hinv hlk
      · exact hinv q hq2
  · -- finish_session preserves the invariant (it sets both fields)
    cases hlk : st.lookup sid with
    | none => simpa [finish_session, hlk] using hinv
    | some s =>
      simp only [finish_session, hlk]
      intro q hq
      rcases mem_update _ _ _ _ hq with hq1 | hq2
      · subst hq1
        rfl
      · exact hinv q hq2
  · -- finish_threshold preserves the invariant (it sets both fields)
    cases hlk : st.lookup sid with
    | none => simpa [finish_threshold, hlk] using hinv
    | some s =>
      cases hb : s.baseline_by_finger with
      | none => simpa [finish_threshold, hlk, hb] using hinv
      | some b =>
        cases hh : b.head? with
        | none => simpa [finish_threshold, hlk, hb, hh] using hinv
        | some ft =>
          simp only [finish_threshold, hlk, hb, hh]
          intro q hq
          rcases mem_update _ _ _ _ hq with hq1 | hq2
          · subst hq1
            rfl
          · exact hinv q hq2
  · -- the finish transition sets both; warmup and record touch neither
    intro s hs
    refine ⟨?_, ?_, ?_⟩
    · rw [finish_session, hs]
      simp only []
      rw [lookup_update_self, hs]
      rfl
    · rw [set_warmup_baseline, hs]
      simp only []
      rw [lookup_update_self, hs]
      rfl
    · rw [record_event, hs]
      simp only []
      rw [lookup_update_self, hs]
      rfl
  · -- a freshly started session has neither field set
    intro hnone
    simp only [start_session, Store.insert, hnone, Option.isSome_none,
      Bool.false_eq_true, if_neg]
    exact lookup_append_fresh st sid _ hnone

theorem score_finished_invariant_witness :
    (scoreFinishInv (start_session exScoresStore "a" 20
        GameKey.space_invader).1 ∧
     scoreFinishInv (set_warmup_baseline exScoresStore "a"
        (some [("thumb", (10 : Rat))])).2 ∧
     scoreFinishInv (set_warmup_baseline exScoresStore "a" none).2 ∧
     scoreFinishInv (record_event exScoresStore "a" { hit := some true }).2 ∧
     scoreFinishInv (finish_session exScoresStore "a" 20
        { event := { hit := some true }, score := 4 }).2 ∧
     scoreFinishInv (finish_threshold exScoresStore "a" 20).2) ∧
    (∀ s, exScoresStore.lookup "a" = some s →
      (finish_session exScoresStore "a" 20
          { event := { hit := some true }, score := 4 }).2.lookup "a"
          = some { s with finished_at := some 20, score := some 4,
                          metrics := some { hit := some true } } ∧
      (set_warmup_baseline exScoresStore "a"
          (some [("thumb", (10 : Rat))])).2.lookup "a"
          = some { s with
                     baseline_by_finger := some [("thumb", (10 : Rat))] } ∧
      (record_event exScoresStore "a" { hit := some true }).2.lookup "a"
          = some { s with events := s.events ++ [{ hit := some true }] }) ∧
    (exScoresStore.lookup "a" = none →
      (start_session exScoresStore "a" 20 GameKey.space_invader).1.lookup "a"
        = some { started_at := 20, finished_at := none,
                 game_key := GameKey.space_invader,
                 baseline_by_finger := none, events := [], score := none,
                 metrics := none }) := by
  exact score_finished_invariant exScoresStore "a" 20
    GameKey.space_invader [("thumb", (10 : Rat))] { hit := some true }
    { event := { hit := some true }, score := 4 }
    (by unfold scoreFinishInv; decide)

/-- C10: a finished session is not read-only at the public interface.
After a successful `finish_session`, `record_event` still succeeds and
appends to the event sequence, and `set_warmup_baseline` still succeeds and
replaces the baseline — neither handler checks `finished_at`, which stays
set throughout. -/
theorem finished_session_still_mutable (st : Store) (sid : String)
    (now : Nat) (fp : FinishPayload) (ev : EventPayload)
    (bl : List (String × Rat)) (s : Session)
    (hs : st.lookup sid = some s) :
    (finish_session st sid now fp).1 = Except.ok fp.event ∧
    (record_event (finish_session st sid now fp).2 sid ev).1
      = Except.ok (s.events.length + 1) ∧
    ((record_event (finish_session st sid now fp).2 sid ev).2.lookup
        sid).map Session.events = some (s.events ++ [ev]) ∧
    ((record_event (finish_session st sid now fp).2 sid ev).2.lookup
        sid).map Session.finished_at = some (some now) ∧
    (set_warmup_baseline (finish_session st sid now fp).2 sid (some bl)).1
      = Except.ok bl ∧
    ((set_warmup_baseline (finish_session st sid now fp).2 sid
        (some bl)).2.lookup sid).map Session.baseline_by_finger
      = some (some bl) ∧
    ((set_warmup_baseline (finish_session st sid now fp).2 sid
        (some bl)).2.lookup sid).map Session.finished_at
      = some (some now) := by
  have hfin : (finish_session st sid now fp).2.lookup sid
      = some { s with finished_at := some now, score := some fp.score,
                      metrics := some fp.event } := by
    rw [finish_session, hs]
    simp only []
    rw [lookup_update_self, hs]
    rfl
  refine ⟨by simp [finish_session, hs], ?_, ?_, ?_, ?_, ?_, ?_⟩
  · simp [record_event, hfin]
  · rw [record_event, hfin]
    simp only []
    rw [lookup_update_self, hfin]
    rfl
  · rw [record_event, hfin]
    simp only []
    rw [lookup_update_self, hfin]
    rfl
  · simp [set_warmup_baseline, hfin]
  · rw [set_warmup_baseline, hfin]
    simp only []
    rw [lookup_update_self, hfin]
    rfl
  · rw [set_warmup_baseline, hfin]
    simp only []
    rw [lookup_update_self, hfin]
    rfl

theorem finished_session_still_mutable_witness :
    (finish_session exBaselineStore "b1" 9
        { event := { hit := some false }, score := 2 }).1
      = Except.ok { hit := some false } ∧
    (record_event (finish_session exBaselineStore "b1" 9
        { event := { hit := some false }, score := 2 }).2 "b1"
        { hit := some true }).1 = Except.ok 1 ∧
    ((record_event (finish_session exBaselineStore "b1" 9
        { event := { hit := some false }, score := 2 }).2 "b1"
        { hit := some true }).2.lookup "b1").map Session.events
      = some [{ hit := some true }] ∧
    ((record_event (finish_session exBaselineStore "b1" 9
        { event := { hit := some false }, score := 2 }).2 "b1"
        { hit := some true }).2.lookup "b1").map Session.finished_at
      = some (some 9) ∧
    (set_warmup_baseline (finish_session exBaselineStore "b1" 9
        { event := { hit := some false }, score := 2 }).2 "b1"
        (some [("ring", (15 : Rat))])).1
      = Except.ok [("ring", (15 : Rat))] ∧
    ((set_warmup_baseline (finish_session exBaselineStore "b1" 9
        { event := { hit := some false }, score := 2 }).2 "b1"
        (some [("ring", (15 : Rat))])).2.lookup "b1").map
        Session.baseline_by_finger = some (some [("ring", (15 : Rat))]) ∧
    ((set_warmup_baseline (finish_session exBaselineStore "b1" 9
        { event := { hit := some false }, score := 2 }).2 "b1"
        (some [("ring", (15 : Rat))])).2.lookup "b1").map
        Session.finished_at = some (some 9) := by
  have h := finished_session_still_mutable exBaselineStore "b1" 9
    { event := { hit := some false }, score := 2 } { hit := some true }
    [("ring", (15 : Rat))] exBaselineSession rfl
  exact ⟨h.1, h.2.1, h.2.2.1.trans (by rfl), h.2.2.2.1, h.2.2.2.2.1,
    h.2.2.2.2.2.1, h.2.2.2.2.2.2⟩

end Handora
